import Mathlib

/-!
Shallow embedding of the djapy contract-enforcement layer
(src/djapy/v2/dec.py, src/djapy/data/dec2.py, src/djapy/v2/openapi.py),
together with theorems settling the frozen claims about its specification.

External collaborators (Django request objects, the pydantic validation
engine, the dynamically imported error-handler extension module) are
modelled at their interface boundary, as the specification prescribes:
validation is an opaque capability "value × type-description → typed value
or structured error", requests carry a method string and an
authentication flag, and the extension module is a table of named
attributes.
-/

namespace Djapy

/-- Flat JSON-ish scalar values appearing inside response bodies and as
handler return payloads. -/
inductive JVal where
  | s (v : String)
  | i (v : Int)
  | b (v : Bool)
  | null
  deriving Repr, DecidableEq

/-- A JSON body as handed to `JsonResponse`: a dict, a list (for
`safe=False` payloads), or a raw value. -/
inductive Body where
  | dict (entries : List (String × JVal))
  | list (items : List JVal)
  | raw (v : JVal)
  deriving Repr, DecidableEq

/-- A Python exception value, as far as the wrapper inspects it: pydantic
`ValidationError` (carrying (location, message) field errors),
`AttributeError`, or any other exception class identified by its name. -/
inductive Exc where
  | validationError (errs : List (String × String))
  | attributeError (msg : String)
  | other (tyName : String)
  deriving Repr, DecidableEq

/-- `exception.__class__` as the name compared by `handle_error`
(src/djapy/v2/dec.py line 56 compares the runtime class for equality with
the registered annotation, so distinct classes compare unequal). -/
def Exc.className : Exc → String
  | .validationError _ => "ValidationError"
  | .attributeError _ => "AttributeError"
  | .other tyName => tyName

/-- The slice of a Django `HttpRequest` the wrapper reads: `request.method`
and `request.user.is_authenticated`. -/
structure Request where
  method : String
  userIsAuthenticated : Bool
  deriving Repr, DecidableEq

/-- A produced `JsonResponse`/`HttpResponse`: status code and JSON body. -/
structure Response where
  status : Int
  body : Body
  deriving Repr, DecidableEq

/-- Modelled from the spec: `DEFAULT_AUTH_REQUIRED_MESSAGE` from
djapy/v2/defaults.py, which is not under src/; an opaque fixed JSON dict
(its exact wording is irrelevant to every claim). -/
def DEFAULT_AUTH_REQUIRED_MESSAGE : Body :=
  Body.dict [("message", JVal.s "You need to be logged in"), ("alias", JVal.s "auth_required")]

/-- Modelled from the spec: `DEFAULT_METHOD_NOT_ALLOWED_MESSAGE` from
djapy/v2/defaults.py, which is not under src/; an opaque fixed JSON dict. -/
def DEFAULT_METHOD_NOT_ALLOWED_MESSAGE : Body :=
  Body.dict [("message", JVal.s "Method not allowed"), ("alias", JVal.s "method_not_allowed")]

/-- Modelled from the spec: `DEFAULT_MESSAGE_ERROR` from
djapy/v2/defaults.py, which is not under src/. The spec's wire format for
unhandled exceptions is a fixed generic body with keys
message/error_message/alias (the same shape dec2.py line 80 builds
inline). It names no status code. -/
def DEFAULT_MESSAGE_ERROR : Body :=
  Body.dict
    [("message", JVal.s "Something went wrong"),
     ("error_message", JVal.s "failed_to_handle_request"),
     ("alias", JVal.s "server_error")]

/-- Modelled from the spec: `create_json_from_validation_error` from
djapy/v2/response.py, which is not under src/: renders a pydantic
`ValidationError` to the JSON enumerating `(fieldPath, message)` entries
served with status 400. -/
def create_json_from_validation_error (errs : List (String × String)) : Body :=
  Body.dict (errs.map fun p => (p.1, JVal.s p.2))

/-- The value returned by one error-handler extension function, as the
wrapper discriminates it: `None`, a dict (with a flag recording whether
`JsonResponse` can serialize it, i.e. whether line 60's `JsonResponse`
raises `TypeError`), or some other (truthy) non-dict value. -/
inductive EHRet where
  | none
  | dict (entries : List (String × JVal)) (serializable : Bool)
  | nonDict

/-- One entry of the error-handler registry: the class name declared as
the annotation of the function's `exception` parameter, and the function
itself (per the spec's interface contract, a total function
`(request, exception) → mapping | none`). -/
structure ErrorHandlerEntry where
  excClass : String
  fn : Request → Exc → EHRet

/-- src/djapy/v2/dec.py line 21. -/
def MAX_HANDLER_COUNT : Nat := 1

/-- The optionally importable `djapy_ext.errorhandler` extension module:
its `dir()` listing and its attribute lookup. -/
structure ExtModule where
  dirNames : List String
  getattr : String → ErrorHandlerEntry

/-- Python `s.startswith(pre)`. -/
def pyStartsWith (s pre : String) : Bool :=
  pre.data.isPrefixOf s.data

/-- src/djapy/v2/dec.py lines 37-49: module-level registry
initialization. `none` models an absent module (the `import_module` call
raising). Returns (whether `logging.warning` ran, the registry built from
the attributes whose name starts with `handler_`, in `dir()` order). The
`except` swallows the import failure, so initialization itself never
raises. -/
def init_errorhandler (module : Option ExtModule) : Bool × List ErrorHandlerEntry :=
  match module with
  | Option.none => (false, [])
  | some m =>
    (decide (m.dirNames.length > MAX_HANDLER_COUNT),
     (m.dirNames.filter (fun f => pyStartsWith f "handler_")).map m.getattr)

/-- src/djapy/data/dec2.py lines 46-50: `djapify` there imports the same
extension module, swallowing import failure into
`_imported_errorhandler = None`, and then immediately evaluates
`print(getattr(_imported_errorhandler, 'handler'))` with no default, which
raises `AttributeError` when the module is absent (and also when the
module lacks an attribute literally named `handler`). -/
def dec2_import_errorhandler (module : Option ExtModule) : Except Exc (Option ExtModule) :=
  match module with
  | Option.none =>
    Except.error (Exc.attributeError "NoneType object has no attribute handler")
  | some m =>
    if m.dirNames.contains "handler" then Except.ok (some m)
    else Except.error (Exc.attributeError "module djapy_ext.errorhandler has no attribute handler")

/-- src/djapy/v2/dec.py lines 52-64, `handle_error`: walk the registry in
order; for an entry whose declared exception class equals the runtime
class of the exception, call it; a truthy dict result is served as a 400
`JsonResponse` (500 generic if it fails to serialize); otherwise keep
walking; no entry left yields `None`. -/
def handle_error (registry : List ErrorHandlerEntry) (request : Request) (exception : Exc) :
    Option Response :=
  match registry with
  | [] => Option.none
  | entry :: rest =>
    if exception.className = entry.excClass then
      match entry.fn request exception with
      | .dict entries ser =>
        if entries.isEmpty then handle_error rest request exception
        else if ser then some ⟨400, Body.dict entries⟩
        else some ⟨500, DEFAULT_MESSAGE_ERROR⟩
      | _ => handle_error rest request exception
    else handle_error rest request exception

/-- A response type description as stored in the return annotation map:
either a subclass of `Schema` (pydantic model) or a plain callable class
(a primitive wrapper such as `int`), identified by name. -/
inductive Ty where
  | schemaCls (name : String)
  | plainCls (name : String)
  deriving Repr, DecidableEq

/-- The value of `view_func.__annotations__['return']`: absent, a bare
non-dict object, or a dict from status code to type. -/
inductive Annot where
  | none
  | bare (t : Ty)
  | map (m : List (Int × Ty))
  deriving Repr, DecidableEq

/-- `dict.get(status, None)` on the annotation map (keys are unique in a
Python dict; first match returned). -/
def lookupTy (m : List (Int × Ty)) (status : Int) : Option Ty :=
  match m with
  | [] => Option.none
  | (s, t) :: rest => if status = s then some t else lookupTy rest status

/-- src/djapy/v2/dec.py line 107, `x_schema.get(status, None)`: only a
dict annotation supports `.get`; a missing annotation (`None`) or a bare
class raises `AttributeError` at this point. -/
def annotGet (a : Annot) (status : Int) : Except Exc (Option Ty) :=
  match a with
  | .map m => Except.ok (lookupTy m status)
  | .none => Except.error (Exc.attributeError "NoneType object has no attribute get")
  | .bare _ => Except.error (Exc.attributeError "type object has no attribute get")

/-- The schema/validation capability (pydantic), opaque per the spec:
`validate name v` models `SchemaSubclass.model_validate(v).dict()`
(field errors on failure); `isInst v name` models `isinstance(v, cls)`;
`convert name v` models calling the plain class on the value (guarded by
the `isinstance` check in the source, hence total here). -/
structure SchemaCap where
  validate : String → JVal → Except (List (String × String)) (List (String × JVal))
  isInst : JVal → String → Bool
  convert : String → JVal → JVal

/-- src/djapy/v2/dec.py lines 107-115: response-schema resolution for a
given status and returned value. A `Schema` subclass is validated
(pydantic raising `ValidationError` on failure); a plain callable class
whose instance the value already is gets applied directly; otherwise line
115 raises — with `create_validation_error` (a pydantic `ValidationError`,
built by djapy/v2/response.py which is not under src/) when a type is
present, but with `AttributeError` when the status is absent from the map,
because the message f-string evaluates `None.__name__` first. -/
def resolveResponse (cap : SchemaCap) (xschema : Annot) (status : Int) (response : JVal) :
    Except Exc Response :=
  match annotGet xschema status with
  | Except.error e => Except.error e
  | Except.ok opt =>
    match opt with
    | some (.schemaCls name) =>
      match cap.validate name response with
      | Except.ok fields => Except.ok ⟨status, Body.dict fields⟩
      | Except.error errs => Except.error (Exc.validationError errs)
    | some (.plainCls name) =>
      if cap.isInst response name then
        Except.ok ⟨status, Body.raw (cap.convert name response)⟩
      else
        Except.error (Exc.validationError [("response", name ++ "_parsing")])
    | Option.none =>
      Except.error (Exc.attributeError "NoneType object has no attribute __name__")

/-- The validated keyword arguments produced by
`extract_and_validate_request_params`. -/
def Kwargs : Type := List (String × JVal)

/-- What the handler body returned: a bare value, or a
`(statusCode, value)` tuple. -/
inductive HandlerRet where
  | bare (v : JVal)
  | pair (status : Int) (v : JVal)

/-- src/djapy/v2/dec.py lines 102-105: tuple unpacking with default
status 200. -/
def retStatusVal : HandlerRet → Int × JVal
  | .bare v => (200, v)
  | .pair s v => (s, v)

/-- src/djapy/v2/dec.py lines 100-115, the body of the `try` block:
parameter extraction, handler invocation, then response resolution; each
stage may raise. The extraction outcome and the handler are supplied as
inputs (their own code lives in djapy/v2/parser.py and the application,
outside this core). -/
def run_view_and_resolve (cap : SchemaCap) (xschema : Annot)
    (extraction : Except Exc Kwargs) (handler : Kwargs → Except Exc HandlerRet) :
    Except Exc Response :=
  match extraction with
  | Except.error e => Except.error e
  | Except.ok kwargs =>
    match handler kwargs with
    | Except.error e => Except.error e
    | Except.ok ret =>
      let sv := retStatusVal ret
      resolveResponse cap xschema sv.1 sv.2

/-- src/djapy/v2/dec.py lines 120-127: the `except` fallback — offer the
exception to the registry; if unclaimed, serve 400 validation JSON for a
pydantic `ValidationError` and the generic 500 otherwise. -/
def except_fallback (registry : List ErrorHandlerEntry) (request : Request) (e : Exc) :
    Response :=
  match handle_error registry request e with
  | some r => r
  | Option.none =>
    match e with
    | .validationError errs => ⟨400, create_json_from_validation_error errs⟩
    | _ => ⟨500, DEFAULT_MESSAGE_ERROR⟩

/-- src/djapy/v2/dec.py lines 99-127: the `try/except` of the wrapper.
Any exception is logged, offered to the error-handler registry, then —
if unclaimed — served as 400 validation JSON when it is a pydantic
`ValidationError`, and as the generic 500 otherwise. -/
def try_block (cap : SchemaCap) (registry : List ErrorHandlerEntry) (xschema : Annot)
    (extraction : Except Exc Kwargs) (handler : Kwargs → Except Exc HandlerRet)
    (request : Request) : Response :=
  match run_view_and_resolve cap xschema extraction handler with
  | Except.ok r => r
  | Except.error exception =>
    match handle_error registry request exception with
    | some r => r
    | Option.none =>
      match exception with
      | .validationError errs => ⟨400, create_json_from_validation_error errs⟩
      | _ => ⟨500, DEFAULT_MESSAGE_ERROR⟩

/-- The runtime value of the `djapy_allowed_method` attribute read with
`getattr(_wrapped_view, 'djapy_allowed_method', None)`: absent, a string,
or a list of strings. -/
inductive MethodAttr where
  | none
  | str (s : String)
  | list (l : List String)
  deriving Repr, DecidableEq

/-- src/djapy/v2/dec.py line 90: the auth gate condition. -/
def authGateFails (loginRequired : Bool) (request : Request) : Bool :=
  loginRequired && !request.userIsAuthenticated

/-- src/djapy/v2/dec.py line 93: the list-typed method gate condition. -/
def listMethodGateFails (attr : MethodAttr) (request : Request) : Bool :=
  match attr with
  | .list l => !(l.contains request.method)
  | _ => false

/-- src/djapy/v2/dec.py line 96: the string-typed method gate condition
(the `elif` branch). -/
def strMethodGateFails (attr : MethodAttr) (request : Request) : Bool :=
  match attr with
  | .str s => request.method != s
  | _ => false

/-- src/djapy/v2/dec.py lines 86-127, `_wrapped_view`: the full per-request
pipeline. `loginRequired` is the `djapy_has_login_required` attribute,
`attr` the `djapy_allowed_method` attribute, `viewMsg` the
`djapy_message_response` attribute of the original view function
(`Option.none` when unset, so `getattr` falls back to the default message
of each gate). Note the source checks the auth gate BEFORE the method
gate. -/
def wrapped_view (cap : SchemaCap) (registry : List ErrorHandlerEntry)
    (loginRequired : Bool) (attr : MethodAttr) (viewMsg : Option Body)
    (xschema : Annot) (extraction : Except Exc Kwargs)
    (handler : Kwargs → Except Exc HandlerRet) (request : Request) : Response :=
  if authGateFails loginRequired request then
    ⟨401, viewMsg.getD DEFAULT_AUTH_REQUIRED_MESSAGE⟩
  else if listMethodGateFails attr request then
    ⟨405, viewMsg.getD DEFAULT_METHOD_NOT_ALLOWED_MESSAGE⟩
  else if strMethodGateFails attr request then
    ⟨405, viewMsg.getD DEFAULT_METHOD_NOT_ALLOWED_MESSAGE⟩
  else
    try_block cap registry xschema extraction handler request

/-- The `allowed_method` configuration value passed to `djapify`:
`None`, a string, or a list of strings (the declared parameter type). -/
inductive PyMethodCfg where
  | pyNone
  | pyStr (s : String)
  | pyList (l : List String)
  deriving Repr, DecidableEq

/-- Python truthiness of the `allowed_method` argument as tested by
`if allowed_method:` on src/djapy/v2/dec.py line 140. -/
def cfgTruthy : PyMethodCfg → Bool
  | .pyNone => false
  | .pyStr s => !(s == "")
  | .pyList l => !l.isEmpty

/-- src/djapy/v2/dec.py lines 140-144: the attribute the decorator
attaches. A truthy list is attached as-is; a truthy string is wrapped in
a one-element list; a falsy configuration leaves the attribute unset, so
the wrapper's `getattr` default `None` applies. -/
def decorator_allowed_attr (cfg : PyMethodCfg) : MethodAttr :=
  if cfgTruthy cfg then
    match cfg with
    | .pyList l => .list l
    | .pyStr s => .list [s]
    | .pyNone => .none
  else .none

/-- Whether a `MethodAttr` is a list. -/
def MethodAttr.isList : MethodAttr → Bool
  | .list _ => true
  | _ => false

/-- Whether a `MethodAttr` is a string. -/
def MethodAttr.isStr : MethodAttr → Bool
  | .str _ => true
  | _ => false

/-- The schema argument of the dec2-variant `djapify`
(src/djapy/data/dec2.py line 29): a dict from status to type, or any
non-dict object. -/
inductive Dec2SchemaArg where
  | dict (m : List (Int × Ty))
  | nonDict (t : Ty)
  deriving Repr, DecidableEq

/-- src/djapy/data/dec2.py lines 43-44: a non-dict schema argument is
normalized to `{200: value}` before use. -/
def dec2_normalize_schema : Dec2SchemaArg → List (Int × Ty)
  | .dict m => m
  | .nonDict t => [(200, t)]

/- ----------------------------------------------------------------------
The API Document Generator, src/djapy/v2/openapi.py.
---------------------------------------------------------------------- -/

/-- A nested JSON document, as assembled by the generator. -/
inductive Doc where
  | str (s : String)
  | int (n : Int)
  | obj (fields : List (String × Doc))
  | arr (items : List Doc)

/-- The attributes the generator reads off a contract-wrapped callback:
the `djapy`/`openapi` markers, `__name__`, `djapy_allowed_method`,
`required_params` (as (name, annotation type name) pairs) and `schema`
(the status→type items of the return-annotation map). -/
structure Callback where
  djapy : Bool
  openapi : Bool
  name : String
  allowedMethods : List String
  requiredParams : List (String × String)
  schemaMap : List (Int × String)

/-- The output of one pydantic `create_model(...).schema(...)` rendering,
already split the way the source consumes it: the popped `$defs` table
(empty when the key is absent) and the remaining content (for a response
model, the `properties.response` sub-document). -/
structure RenderedOut where
  defs : List (String × Doc)
  content : Doc

/-- The schema-rendering capability (pydantic `create_model` + `.schema`),
opaque per the spec: one renderer for the anonymous request model built
from `required_params`, one for the per-status response model. -/
structure RenderCap where
  renderRequest : List (String × String) → RenderedOut
  renderResponse : String → RenderedOut

/-- Python dict assignment `d[k] = v` on an association list: an existing
key keeps its position and gets the new value; a new key is appended. -/
def setD (d : List (String × Doc)) (k : String) (v : Doc) : List (String × Doc) :=
  match d with
  | [] => [(k, v)]
  | kv :: rest => if kv.1 = k then (k, v) :: rest else kv :: setD rest k v

/-- Python `d.update(items)`: assign every pair in iteration order. -/
def updD (d : List (String × Doc)) (items : List (String × Doc)) : List (String × Doc) :=
  items.foldl (fun acc kv => setD acc kv.1 kv.2) d

/-- src/djapy/v2/openapi.py lines 57-63 / 124-131,
`re.sub('<int:(.+?)>', '{\\g<1>}', pattern)`: rewrite every typed int
capture `<int:name>` into a bare placeholder written `{name}` (braces are
built from their character codes below). Implemented as the regex engine
behaves: scan left to right, at each position try the non-greedy match
(shortest nonempty capture ending at a closing angle bracket), replace
and continue after it. -/
def captureUpToGt : List Char → List Char → Option (List Char × List Char)
  | _, [] => Option.none
  | acc, d :: ds => if d = '>' then some (acc.reverse, ds) else captureUpToGt (d :: acc) ds

/-- Left-to-right scan of the pattern, replacing each `<int:name>` with
the brace-delimited bare name. Fuel bounds the recursion (the scan
consumes at least one character per step, so the character count is
always enough fuel). -/
def subIntCaptures : Nat → List Char → List Char
  | 0, cs => cs
  | _ + 1, [] => []
  | fuel + 1, c :: cs =>
    if c = '<' then
      match cs with
      | 'i' :: 'n' :: 't' :: ':' :: rest =>
        match rest with
        | [] => c :: subIntCaptures fuel cs
        | r :: rs =>
          if r = '>' then c :: subIntCaptures fuel cs
          else
            match captureUpToGt [r] rs with
            | some (name, after) =>
              (Char.ofNat 123) :: name ++ (Char.ofNat 125) :: subIntCaptures fuel after
            | Option.none => c :: subIntCaptures fuel cs
      | _ => c :: subIntCaptures fuel cs
    else c :: subIntCaptures fuel cs

/-- `Path.make_path_name_from_url` on a pattern string. -/
def make_path_name (pat : String) : String :=
  String.mk (subIntCaptures pat.data.length pat.data)

/-- src/djapy/v2/openapi.py lines 65-84, `Path.get_responses`: iterate the
callback's status→schema items; render each response model; pop its
`$defs` into the export components; record the response entry under the
stringified status. Returns (responses dict, export components so far). -/
def get_responses (cap : RenderCap) (schemaMap : List (Int × String)) :
    List (String × Doc) × List (String × Doc) :=
  schemaMap.foldl
    (fun acc entry =>
      let desc := if entry.1 = 200 then "OK" else "Else 200"
      let r := cap.renderResponse entry.2
      let comps := updD acc.2 r.defs
      let responses := setD acc.1 (toString entry.1)
        (Doc.obj
          [("description", Doc.str desc),
           ("content", Doc.obj [("application/json", Doc.obj [("schema", r.content)])])])
      (responses, comps))
    ([], [])

/-- src/djapy/v2/openapi.py lines 41-55, `Path.get_request_body`: render
the anonymous request model from `required_params`, pop its `$defs` into
the export components, wrap the rest as the request body. Returns
(request body, updated export components). -/
def get_request_body (cap : RenderCap) (params : List (String × String))
    (comps : List (String × Doc)) : Doc × List (String × Doc) :=
  let r := cap.renderRequest params
  let comps := updD comps r.defs
  (Doc.obj [("content", Doc.obj [("application/json", Doc.obj [("schema", r.content)])])], comps)

/-- The fields of one constructed `Path` object. `export_definitions` is
initialized to the empty dict and never written anywhere in the class. -/
structure PathData where
  path : String
  methods : List String
  operationId : String
  responses : List (String × Doc)
  requestBody : Doc
  exportComponents : List (String × Doc)
  exportDefinitions : List (String × Doc)

/-- src/djapy/v2/openapi.py lines 30-39, `Path.__init__`: path name from
the url pattern, then responses (filling export components), then request
body (filling them further). -/
def Path_init (cap : RenderCap) (pat : String) (cb : Callback) : PathData :=
  let rc := get_responses cap cb.schemaMap
  let rb := get_request_body cap cb.requiredParams rc.2
  { path := make_path_name pat
    methods := cb.allowedMethods
    operationId := cb.name
    responses := rc.1
    requestBody := rb.1
    exportComponents := rb.2
    exportDefinitions := [] }

/-- src/djapy/v2/openapi.py lines 86-96, `Path.dict`: one operation per
allowed method, keyed by the lowercased method. -/
def Path_dict (p : PathData) : Doc :=
  Doc.obj (p.methods.map fun m =>
    (m.toLower,
     Doc.obj
       [("summary", Doc.str "Register and login user"),
        ("operationId", Doc.str p.operationId),
        ("responses", Doc.obj p.responses),
        ("parameters", Doc.arr []),
        ("requestBody", p.requestBody)]))

/- One node of the routing tree: an optional contract-wrapped callback
(absent on pure resolvers), the pattern string, and sub-patterns. -/
mutual
inductive UrlNode where
  | mk (cb : Option Callback) (pat : String) (children : UrlForest)
inductive UrlForest where
  | nil
  | cons (head : UrlNode) (tail : UrlForest)
end

/-- The mutable aggregation state of the `OpenAPI` object: the `paths`,
`components["schemas"]` and `definitions` dicts (class attributes, shared
across generations), each as a key→document map. -/
structure OAState where
  paths : String → Option Doc
  components : String → Option Doc
  defs : String → Option Doc

/-- Overwrite one key of a map. -/
def setF (m : String → Option Doc) (k : String) (v : Doc) : String → Option Doc :=
  fun k' => if k' = k then some v else m k'

/-- Apply a list of writes in order (dict `update` semantics on the
key→value view of the dict). -/
def applyW : List (String × Doc) → (String → Option Doc) → (String → Option Doc)
  | [], m => m
  | kv :: rest, m => applyW rest (setF m kv.1 kv.2)

/- src/djapy/v2/openapi.py lines 148-159, `OpenAPI.generate_paths`: for
each url pattern, when the callback carries both the `djapy` and
`openapi` markers, build a `Path` and merge its definitions, components
and rendered operations into the aggregate state; then recurse into
sub-patterns when present. -/
mutual
def generate_node (cap : RenderCap) (node : UrlNode) (st : OAState) : OAState :=
  match node with
  | .mk cb pat children =>
    let st1 :=
      match cb with
      | some c =>
        if c.djapy && c.openapi then
          let p := Path_init cap pat c
          let stA :=
            if !p.exportDefinitions.isEmpty then
              { st with defs := applyW p.exportDefinitions st.defs }
            else st
          let stB :=
            if !p.exportComponents.isEmpty then
              { stA with components := applyW p.exportComponents stA.components }
            else stA
          if c.openapi then { stB with paths := setF stB.paths p.path (Path_dict p) }
          else stB
        else st
      | Option.none => st
    generate_forest cap children st1
def generate_forest (cap : RenderCap) (forest : UrlForest) (st : OAState) : OAState :=
  match forest with
  | .nil => st
  | .cons n rest => generate_forest cap rest (generate_node cap n st)
end

/-- `Info("My API", "1.0.0", description).dict()`,
src/djapy/v2/openapi.py lines 99-116. -/
def Info_dict : Doc :=
  Doc.obj
    [("title", Doc.str "My API"),
     ("version", Doc.str "1.0.0"),
     ("description", Doc.str "This API is a powerful")]

/-- The aggregate document returned by `OpenAPI.dict`, with its dict
fields as key→document maps. -/
structure APIDocument where
  openapiVersion : String
  info : Doc
  paths : String → Option Doc
  componentSchemas : String → Option Doc
  defs : String → Option Doc

/-- src/djapy/v2/openapi.py lines 161-169, `OpenAPI.dict`: perform a
fresh walk of the routing tree (mutating the shared aggregation state)
and assemble the document. Returns the document together with the state
left behind for the next call. -/
def OpenAPI_dict (cap : RenderCap) (tree : UrlForest) (st : OAState) : APIDocument × OAState :=
  let st' := generate_forest cap tree st
  ({ openapiVersion := "3.1.0"
     info := Info_dict
     paths := st'.paths
     componentSchemas := st'.components
     defs := st'.defs }, st')

/- The component writes (key, value) a node walk performs, in order. -/
mutual
def node_comp_writes (cap : RenderCap) : UrlNode → List (String × Doc)
  | .mk cb pat children =>
    (match cb with
     | some c =>
       if c.djapy && c.openapi then (Path_init cap pat c).exportComponents else []
     | Option.none => []) ++ forest_comp_writes cap children
def forest_comp_writes (cap : RenderCap) : UrlForest → List (String × Doc)
  | .nil => []
  | .cons n rest => node_comp_writes cap n ++ forest_comp_writes cap rest
end

/- The path writes (path string, operations document) a node walk
performs, in order. -/
mutual
def node_path_writes (cap : RenderCap) : UrlNode → List (String × Doc)
  | .mk cb pat children =>
    (match cb with
     | some c =>
       if c.djapy && c.openapi then
         let p := Path_init cap pat c
         [(p.path, Path_dict p)]
       else []
     | Option.none => []) ++ forest_path_writes cap children
def forest_path_writes (cap : RenderCap) : UrlForest → List (String × Doc)
  | .nil => []
  | .cons n rest => node_path_writes cap n ++ forest_path_writes cap rest
end

/-- The last value written for a key in a write list, if any. -/
def assocLast : List (String × Doc) → String → Option Doc
  | [], _ => Option.none
  | kv :: rest, k =>
    match assocLast rest k with
    | some v => some v
    | Option.none => if k = kv.1 then some kv.2 else Option.none

/- ----------------------------------------------------------------------
Concrete fixtures for counterexamples and witnesses.
---------------------------------------------------------------------- -/

/-- A trivial schema capability for concrete evaluations. -/
def cap0 : SchemaCap :=
  { validate := fun _ v => Except.ok [("value", v)]
    isInst := fun _ _ => true
    convert := fun _ v => v }

/-- A registered error handler for class `NotFoundError` returning a
fixed serializable mapping. -/
def nfEntry : ErrorHandlerEntry :=
  { excClass := "NotFoundError"
    fn := fun _ _ => EHRet.dict [("detail", JVal.s "missing")] true }

/-- An unauthenticated POST request. -/
def postUnauth : Request := ⟨"POST", false⟩

/-- An authenticated POST request. -/
def postAuth : Request := ⟨"POST", true⟩

/-- An authenticated GET request. -/
def getAuth : Request := ⟨"GET", true⟩

/-- An extension module defining no `handler_`-prefixed function at all:
its `dir()` listing holds only the dunder attributes every Python module
has. -/
def emptyHandlerModule : ExtModule :=
  { dirNames := ["__builtins__", "__doc__", "__file__", "__loader__", "__name__"]
    getattr := fun _ => nfEntry }

/-- Substring occurrence check over character lists. -/
def containsSubList (sub : List Char) : List Char → Bool
  | [] => sub.isEmpty
  | c :: rest => sub.isPrefixOf (c :: rest) || containsSubList sub rest

/-- Whether the decimal rendering of `n` occurs in `s`: used to state
that the generic 500 body does not name a missing status code. -/
def strMentionsInt (s : String) (n : Int) : Bool :=
  containsSubList (toString n).data s.data

/-- Whether a JSON scalar mentions the integer `n`. -/
def JVal.mentionsInt : JVal → Int → Bool
  | .i v, n => v == n
  | .s v, n => strMentionsInt v n
  | _, _ => false

/-- Whether a body mentions the integer `n` anywhere (keys or values). -/
def Body.mentionsInt : Body → Int → Bool
  | .dict entries, n => entries.any fun p => strMentionsInt p.1 n || p.2.mentionsInt n
  | .list items, n => items.any (JVal.mentionsInt · n)
  | .raw v, n => v.mentionsInt n

/- ----------------------------------------------------------------------
Helper lemmas.
---------------------------------------------------------------------- -/

/-- Whatever `handle_error` serves carries status 400 or 500. -/
theorem handle_error_status (registry : List ErrorHandlerEntry) (request : Request)
    (exception : Exc) (r : Response) (h : handle_error registry request exception = some r) :
    r.status = 400 ∨ r.status = 500 := by
  induction registry with
  | nil => simp [handle_error] at h
  | cons entry rest ih =>
    unfold handle_error at h
    split at h
    · split at h
      · split at h
        · exact ih h
        · split at h
          · simp only [Option.some.injEq] at h
            rw [← h]; left; rfl
          · simp only [Option.some.injEq] at h
            rw [← h]; right; rfl
      · exact ih h
    · exact ih h

/-- When no registry entry declares the exception's runtime class,
`handle_error` yields `None`. -/
theorem handle_error_no_match (registry : List ErrorHandlerEntry) (request : Request)
    (exception : Exc) (h : ∀ en ∈ registry, exception.className ≠ en.excClass) :
    handle_error registry request exception = Option.none := by
  induction registry with
  | nil => rfl
  | cons entry rest ih =>
    unfold handle_error
    rw [if_neg (h entry (List.mem_cons_self entry rest))]
    exact ih fun en hen => h en (List.mem_cons_of_mem entry hen)

/-- First-match semantics of the registry walk: entries before the first
class match are skipped, and a matching entry returning a truthy
serializable dict is served as the 400 body. -/
theorem handle_error_first_match (pre : List ErrorHandlerEntry) (entry : ErrorHandlerEntry)
    (post : List ErrorHandlerEntry) (request : Request) (exception : Exc)
    (d : List (String × JVal))
    (hpre : ∀ en ∈ pre, exception.className ≠ en.excClass)
    (hmatch : exception.className = entry.excClass)
    (hfn : entry.fn request exception = EHRet.dict d true)
    (hne : d ≠ []) :
    handle_error (pre ++ entry :: post) request exception = some ⟨400, Body.dict d⟩ := by
  induction pre with
  | nil =>
    rw [List.nil_append]
    unfold handle_error
    rw [if_pos hmatch, hfn]
    have hd : d.isEmpty = false := by
      cases d with
      | nil => exact absurd rfl hne
      | cons a as => rfl
    simp [hd]
  | cons p rest ih =>
    rw [List.cons_append]
    unfold handle_error
    rw [if_neg (hpre p (List.mem_cons_self p rest))]
    exact ih fun en hen => hpre en (List.mem_cons_of_mem p hen)

/-- When the `try` body raises, `try_block` consults the registry and
falls back to the `ValidationError`/generic discrimination. -/
theorem try_block_error_char (cap : SchemaCap) (registry : List ErrorHandlerEntry)
    (xschema : Annot) (extraction : Except Exc Kwargs)
    (handler : Kwargs → Except Exc HandlerRet) (request : Request) (e : Exc)
    (h : run_view_and_resolve cap xschema extraction handler = Except.error e) :
    try_block cap registry xschema extraction handler request
      = except_fallback registry request e := by
  unfold try_block except_fallback
  rw [h]

/-- Appending write lists composes their application. -/
theorem applyW_append (a b : List (String × Doc)) (m : String → Option Doc) :
    applyW (a ++ b) m = applyW b (applyW a m) := by
  induction a generalizing m with
  | nil => rfl
  | cons kv rest ih => simp only [List.cons_append, applyW]; exact ih _

/-- Pointwise description of a write-list application: the last write to
the key wins, falling back to the starting map. -/
theorem applyW_lookup (ws : List (String × Doc)) (m : String → Option Doc) (k : String) :
    applyW ws m k =
      match assocLast ws k with
      | some v => some v
      | Option.none => m k := by
  induction ws generalizing m with
  | nil => rfl
  | cons kv rest ih =>
    simp only [applyW, assocLast, ih (setF m kv.1 kv.2)]
    cases assocLast rest k with
    | some v => rfl
    | none =>
      simp only [setF]
      by_cases hk : k = kv.1
      · rw [if_pos hk, if_pos hk]
      · rw [if_neg hk, if_neg hk]

/-- Replaying the same write list is a no-op. -/
theorem applyW_idem (ws : List (String × Doc)) (m : String → Option Doc) :
    applyW ws (applyW ws m) = applyW ws m := by
  funext k
  rw [applyW_lookup, applyW_lookup]
  cases h : assocLast ws k with
  | some v => rfl
  | none => simp only [applyW_lookup, h]

/- Characterization of the walk: it applies exactly the per-node path and
component writes to the aggregate state and leaves `$defs` untouched
(`Path.export_definitions` is the empty dict on every constructed path). -/
mutual
theorem generate_node_char (cap : RenderCap) (node : UrlNode) (st : OAState) :
    generate_node cap node st =
      { paths := applyW (node_path_writes cap node) st.paths
        components := applyW (node_comp_writes cap node) st.components
        defs := st.defs } := by
  match node with
  | .mk cb pat children =>
    unfold generate_node node_path_writes node_comp_writes
    match cb with
    | Option.none =>
      rw [generate_forest_char]
      simp
    | some c =>
      by_cases hc : (c.djapy && c.openapi) = true
      · rw [Bool.and_eq_true] at hc
        obtain ⟨hdj, hop⟩ := hc
        by_cases hcomp :
            (get_request_body cap c.requiredParams
              (get_responses cap c.schemaMap).2).2.isEmpty = true
        · rw [List.isEmpty_iff] at hcomp
          simp only [Path_init, hdj, hop, hcomp]
          rw [generate_forest_char]
          simp [applyW_append, applyW]
        · rw [Bool.not_eq_true] at hcomp
          simp only [Path_init, hdj, hop, hcomp]
          rw [generate_forest_char]
          simp [applyW_append, applyW]
      · simp only [hc]
        rw [generate_forest_char]
        simp
theorem generate_forest_char (cap : RenderCap) (forest : UrlForest) (st : OAState) :
    generate_forest cap forest st =
      { paths := applyW (forest_path_writes cap forest) st.paths
        components := applyW (forest_comp_writes cap forest) st.components
        defs := st.defs } := by
  match forest with
  | .nil => rfl
  | .cons n rest =>
    unfold generate_forest forest_path_writes forest_comp_writes
    rw [generate_node_char cap n st, generate_forest_char cap rest]
    simp only [applyW_append]
end

/- ----------------------------------------------------------------------
Claim theorems.
---------------------------------------------------------------------- -/

/-- C1 (counterexample): the claim asserts that a POST request to a
handler declaring `allowedMethods = ["GET"]` yields 405 even when
`loginRequired` is true and the request is unauthenticated. On the code
the auth gate runs first (src/djapy/v2/dec.py line 90 precedes line 93),
so this concrete request yields 401, not 405. -/
theorem c1_method_before_auth_counterexample :
    (wrapped_view cap0 [] true (MethodAttr.list ["GET"]) Option.none (Annot.map [])
      (Except.ok []) (fun _ => Except.ok (HandlerRet.bare JVal.null)) postUnauth).status = 401
    ∧ (wrapped_view cap0 [] true (MethodAttr.list ["GET"]) Option.none (Annot.map [])
      (Except.ok []) (fun _ => Except.ok (HandlerRet.bare JVal.null)) postUnauth).status ≠ 405 := by
  constructor
  · rfl
  · decide

/-- C1 (amended): whenever the auth gate does not fire, a request whose
method is not a member of the attached (non-empty or empty) allowed-method
list terminates with 405 and the configured-or-default message. The result
is a constant independent of the handler, the extraction outcome and the
response schema, so the handler body is never invoked. -/
theorem c1_amended_method_not_allowed (cap : SchemaCap) (registry : List ErrorHandlerEntry)
    (loginRequired : Bool) (l : List String) (viewMsg : Option Body) (xschema : Annot)
    (extraction : Except Exc Kwargs) (handler : Kwargs → Except Exc HandlerRet)
    (request : Request)
    (hauth : authGateFails loginRequired request = false)
    (hm : request.method ∉ l) :
    wrapped_view cap registry loginRequired (MethodAttr.list l) viewMsg xschema
        extraction handler request
      = ⟨405, viewMsg.getD DEFAULT_METHOD_NOT_ALLOWED_MESSAGE⟩ := by
  unfold wrapped_view
  rw [hauth]
  have hgate : listMethodGateFails (MethodAttr.list l) request = true := by
    simp [listMethodGateFails, hm]
  rw [hgate]
  simp

/-- C1 (witness for the amended theorem): a concrete authenticated POST
request against a GET-only handler yields the default 405 response. -/
theorem c1_amended_witness :
    wrapped_view cap0 [] false (MethodAttr.list ["GET"]) Option.none (Annot.map [])
        (Except.ok []) (fun _ => Except.ok (HandlerRet.bare JVal.null)) postAuth
      = ⟨405, DEFAULT_METHOD_NOT_ALLOWED_MESSAGE⟩ :=
  c1_amended_method_not_allowed cap0 [] false ["GET"] Option.none (Annot.map [])
    (Except.ok []) (fun _ => Except.ok (HandlerRet.bare JVal.null)) postAuth rfl (by decide)

/-- C2: for every wrapped handler with `loginRequired = true` and every
unauthenticated request, the wrapper returns the 401 result with the
configured-or-default auth message. The right-hand side is a constant
that does not depend on the extraction outcome, the handler body, the
schema capability or the response annotation, so none of parameter
extraction, schema validation or the handler body executes. -/
theorem c2_unauthenticated_401 (cap : SchemaCap) (registry : List ErrorHandlerEntry)
    (attr : MethodAttr) (viewMsg : Option Body) (xschema : Annot)
    (extraction : Except Exc Kwargs) (handler : Kwargs → Except Exc HandlerRet)
    (request : Request)
    (hanon : request.userIsAuthenticated = false) :
    wrapped_view cap registry true attr viewMsg xschema extraction handler request
      = ⟨401, viewMsg.getD DEFAULT_AUTH_REQUIRED_MESSAGE⟩ := by
  unfold wrapped_view
  have hgate : authGateFails true request = true := by
    simp [authGateFails, hanon]
  rw [hgate]
  simp

/-- C2 (witness): a concrete unauthenticated POST request against a
login-required handler yields the default 401 response. -/
theorem c2_witness :
    wrapped_view cap0 [] true (MethodAttr.list ["POST"]) Option.none (Annot.map [])
        (Except.ok []) (fun _ => Except.ok (HandlerRet.bare JVal.null)) postUnauth
      = ⟨401, DEFAULT_AUTH_REQUIRED_MESSAGE⟩ :=
  c2_unauthenticated_401 cap0 [] (MethodAttr.list ["POST"]) Option.none (Annot.map [])
    (Except.ok []) (fun _ => Except.ok (HandlerRet.bare JVal.null)) postUnauth rfl

/-- C3 (counterexample): the claim asserts that a handler returning a
status absent from its `responseSchemaMap` yields a 500 error naming the
missing status. On the code the result is the fixed generic server-error
body (`x_schema.get` returns `None`, and building the intended error
message raises `AttributeError` on `None.__name__`, which falls to the
generic 500 path); that body does not mention the missing status 201
anywhere. -/
theorem c3_names_status_counterexample :
    wrapped_view cap0 [] false MethodAttr.none Option.none
        (Annot.map [(200, Ty.schemaCls "UserSchema")]) (Except.ok [])
        (fun _ => Except.ok (HandlerRet.pair 201 (JVal.s "x"))) getAuth
      = ⟨500, DEFAULT_MESSAGE_ERROR⟩
    ∧ Body.mentionsInt DEFAULT_MESSAGE_ERROR 201 = false := by
  constructor
  · rfl
  · decide

/-- C3 (amended): a handler returning a status code absent from its
response-schema map makes the wrapper serve the generic 500 server-error
body (never a silent 200), provided no registered error handler claims
the internal `AttributeError`; the body does not name the missing
status. -/
theorem c3_amended_missing_status (cap : SchemaCap) (registry : List ErrorHandlerEntry)
    (loginRequired : Bool) (attr : MethodAttr) (viewMsg : Option Body)
    (m : List (Int × Ty)) (status : Int) (v : JVal) (kwargs : Kwargs)
    (extraction : Except Exc Kwargs) (handler : Kwargs → Except Exc HandlerRet)
    (request : Request)
    (hauth : authGateFails loginRequired request = false)
    (hm1 : listMethodGateFails attr request = false)
    (hm2 : strMethodGateFails attr request = false)
    (hex : extraction = Except.ok kwargs)
    (hh : handler kwargs = Except.ok (HandlerRet.pair status v))
    (hmiss : lookupTy m status = Option.none)
    (hreg : ∀ en ∈ registry, "AttributeError" ≠ en.excClass) :
    wrapped_view cap registry loginRequired attr viewMsg (Annot.map m)
        extraction handler request
      = ⟨500, DEFAULT_MESSAGE_ERROR⟩ := by
  unfold wrapped_view
  rw [hauth, hm1, hm2]
  simp only [Bool.false_eq_true, if_false]
  unfold try_block
  subst hex
  simp only [run_view_and_resolve, hh, retStatusVal]
  unfold resolveResponse annotGet
  simp only [hmiss]
  rw [handle_error_no_match registry request
    (Exc.attributeError "NoneType object has no attribute __name__") hreg]

/-- C3 (witness for the amended theorem): a handler answering
`(404, value)` against a schema map declaring only 200 yields the generic
500 body. -/
theorem c3_amended_witness :
    wrapped_view cap0 [] false MethodAttr.none Option.none
        (Annot.map [(200, Ty.plainCls "int")]) (Except.ok [])
        (fun _ => Except.ok (HandlerRet.pair 404 (JVal.i 7))) getAuth
      = ⟨500, DEFAULT_MESSAGE_ERROR⟩ :=
  c3_amended_missing_status cap0 [] false MethodAttr.none Option.none
    [(200, Ty.plainCls "int")] 404 (JVal.i 7) [] (Except.ok [])
    (fun _ => Except.ok (HandlerRet.pair 404 (JVal.i 7))) getAuth
    rfl rfl rfl rfl rfl rfl (by simp)

/-- C4 (counterexample): the claim asserts that every unregistered
exception type — including validation errors raised deliberately by
handler logic — yields the generic 500 body. On the code a pydantic
`ValidationError` that no registry entry claims is served as a 400
response with the validation JSON (src/djapy/v2/dec.py lines 124-125),
not as a 500. -/
theorem c4_unregistered_500_counterexample :
    (wrapped_view cap0 [] false MethodAttr.none Option.none (Annot.map []) (Except.ok [])
      (fun _ => Except.error (Exc.validationError [("x", "bad")])) getAuth).status = 400
    ∧ (wrapped_view cap0 [] false MethodAttr.none Option.none (Annot.map []) (Except.ok [])
      (fun _ => Except.error (Exc.validationError [("x", "bad")])) getAuth).status ≠ 500 := by
  constructor
  · rfl
  · decide

/-- C4 (amended): error-handler dispatch for an exception `e` raised by
the handler body. (1) Registry entries are walked in registration order:
with every entry before `entry` declaring a class different from the
runtime class of `e`, `entry` declaring exactly that class, and `entry`
returning a non-empty serializable mapping, that mapping becomes the body
of a 400 response. (2) When no entry declares the runtime class of `e`,
the result is the generic 500 body — except that a pydantic
`ValidationError` is instead served as 400 with the validation JSON. -/
theorem c4_amended_dispatch (cap : SchemaCap) (loginRequired : Bool) (attr : MethodAttr)
    (viewMsg : Option Body) (xschema : Annot) (kwargs : Kwargs)
    (extraction : Except Exc Kwargs) (handler : Kwargs → Except Exc HandlerRet)
    (request : Request) (e : Exc)
    (hauth : authGateFails loginRequired request = false)
    (hm1 : listMethodGateFails attr request = false)
    (hm2 : strMethodGateFails attr request = false)
    (hex : extraction = Except.ok kwargs)
    (hh : handler kwargs = Except.error e) :
    (∀ (pre : List ErrorHandlerEntry) (entry : ErrorHandlerEntry)
        (post : List ErrorHandlerEntry) (d : List (String × JVal)),
      (∀ en ∈ pre, e.className ≠ en.excClass) →
      e.className = entry.excClass →
      entry.fn request e = EHRet.dict d true →
      d ≠ [] →
      wrapped_view cap (pre ++ entry :: post) loginRequired attr viewMsg xschema
          extraction handler request
        = ⟨400, Body.dict d⟩)
    ∧ (∀ registry : List ErrorHandlerEntry,
      (∀ en ∈ registry, e.className ≠ en.excClass) →
      wrapped_view cap registry loginRequired attr viewMsg xschema
          extraction handler request
        = match e with
          | .validationError errs => ⟨400, create_json_from_validation_error errs⟩
          | _ => ⟨500, DEFAULT_MESSAGE_ERROR⟩) := by
  constructor
  · intro pre entry post d hpre hmatch hfn hne
    unfold wrapped_view
    rw [hauth, hm1, hm2]
    simp only [Bool.false_eq_true, if_false]
    unfold try_block
    subst hex
    simp only [run_view_and_resolve, hh]
    rw [handle_error_first_match pre entry post request e d hpre hmatch hfn hne]
  · intro registry hreg
    unfold wrapped_view
    rw [hauth, hm1, hm2]
    simp only [Bool.false_eq_true, if_false]
    unfold try_block
    subst hex
    simp only [run_view_and_resolve, hh]
    rw [handle_error_no_match registry request e hreg]
    cases e <;> rfl

/-- C4 (witness for the amended theorem): a registered handler for class
`NotFoundError` serves its returned mapping as the 400 body when the
handler body raises a `NotFoundError`. -/
theorem c4_amended_witness :
    wrapped_view cap0 [nfEntry] false MethodAttr.none Option.none (Annot.map [])
        (Except.ok []) (fun _ => Except.error (Exc.other "NotFoundError")) getAuth
      = ⟨400, Body.dict [("detail", JVal.s "missing")]⟩ :=
  (c4_amended_dispatch cap0 false MethodAttr.none Option.none (Annot.map []) []
    (Except.ok []) (fun _ => Except.error (Exc.other "NotFoundError")) getAuth
    (Exc.other "NotFoundError") rfl rfl rfl rfl rfl).1
    [] nfEntry [] [("detail", JVal.s "missing")] (by simp) rfl rfl (by decide)

/-- C5: the claim that an absent extension module leaves the registry
empty and never raises holds for the module-level v2 initialization, but
handler decoration through the dec2-variant `djapify` contradicts it:
src/djapy/data/dec2.py line 50 evaluates
`print(getattr(_imported_errorhandler, 'handler'))` with no default, which
raises `AttributeError` on the `None` left by the failed import. This
theorem evaluates both code paths at the failing input (absent module). -/
theorem c5_absent_module_behavior :
    dec2_import_errorhandler Option.none
      = Except.error (Exc.attributeError "NoneType object has no attribute handler")
    ∧ init_errorhandler Option.none = (false, []) :=
  ⟨rfl, rfl⟩

/-- C6 (counterexample): the claim asserts the init-time warning fires if
and only if the number of registered error-handler entries exceeds the
soft maximum. On the code the warning condition counts `dir(module)` —
every attribute of the module, dunders included — not the registered
`handler_`-prefixed functions: a module with five dunder attributes and
zero handler functions warns even though zero entries are registered. -/
theorem c6_warn_condition_counterexample :
    (init_errorhandler (some emptyHandlerModule)).1 = true
    ∧ ¬((init_errorhandler (some emptyHandlerModule)).2.length > MAX_HANDLER_COUNT) := by
  constructor
  · rfl
  · decide

/-- C6 (amended): the warning fires exactly when the module is present
and its `dir()` listing (all attributes, not just registered handlers)
has more entries than the soft maximum; an absent module warns nothing
and registers nothing. Initialization is a total function either way, so
startup is never blocked. -/
theorem c6_amended_warn_condition :
    (∀ m : ExtModule,
      (init_errorhandler (some m)).1 = decide (m.dirNames.length > MAX_HANDLER_COUNT))
    ∧ init_errorhandler Option.none = (false, []) :=
  ⟨fun _ => rfl, rfl⟩

/-- C7: the claim (and the spec, and the sibling decorator
src/djapy/data/dec2.py lines 43-44, which normalizes a bare schema to
`{200: schema}`) says a bare return annotation is treated as the response
schema for status 200. The v2 wrapper never normalizes the annotation:
`x_schema.get(status, None)` on a bare class raises `AttributeError`, so
a handler with a bare annotation returning a valid value is served the
generic 500 body instead of a validated 200 — the code contradicts the
documented intent. The second conjunct shows the normalization the
dec2 variant applies to the same shape. -/
theorem c7_bare_annotation_bug :
    wrapped_view cap0 [] false MethodAttr.none Option.none
        (Annot.bare (Ty.schemaCls "UserSchema")) (Except.ok [])
        (fun _ => Except.ok (HandlerRet.bare (JVal.s "ok"))) getAuth
      = ⟨500, DEFAULT_MESSAGE_ERROR⟩
    ∧ dec2_normalize_schema (Dec2SchemaArg.nonDict (Ty.schemaCls "UserSchema"))
      = [(200, Ty.schemaCls "UserSchema")] :=
  ⟨rfl, rfl⟩

/-- C8: generating the API document twice against an unchanged routing
tree yields identical aggregate documents — the same path→operations
mapping and the same component schema table — even though the second
call performs a fresh walk starting from the state the first call left
in the shared aggregation dicts. -/
theorem c8_generation_idempotent (cap : RenderCap) (tree : UrlForest) (st : OAState) :
    (OpenAPI_dict cap tree (OpenAPI_dict cap tree st).2).1 = (OpenAPI_dict cap tree st).1 := by
  unfold OpenAPI_dict
  simp only
  rw [generate_forest_char cap tree st, generate_forest_char cap tree]
  simp only [applyW_idem]

/-- C9: the wrapper is total and every raising stage is intercepted: for
every request, every extraction outcome and every handler (both modelled
as possibly raising), the produced response either carries one of the
structured error statuses 401/405/400/500, or is exactly the
schema-resolved success response of the value the handler returned. No
exception value ever escapes as the wrapper's result. -/
theorem c9_no_uncaught_escape (cap : SchemaCap) (registry : List ErrorHandlerEntry)
    (loginRequired : Bool) (attr : MethodAttr) (viewMsg : Option Body) (xschema : Annot)
    (extraction : Except Exc Kwargs) (handler : Kwargs → Except Exc HandlerRet)
    (request : Request) :
    (wrapped_view cap registry loginRequired attr viewMsg xschema extraction handler
        request).status = 401
    ∨ (wrapped_view cap registry loginRequired attr viewMsg xschema extraction handler
        request).status = 405
    ∨ (wrapped_view cap registry loginRequired attr viewMsg xschema extraction handler
        request).status = 400
    ∨ (wrapped_view cap registry loginRequired attr viewMsg xschema extraction handler
        request).status = 500
    ∨ (∃ (kwargs : Kwargs) (ret : HandlerRet),
        extraction = Except.ok kwargs ∧ handler kwargs = Except.ok ret ∧
        resolveResponse cap xschema (retStatusVal ret).1 (retStatusVal ret).2
          = Except.ok (wrapped_view cap registry loginRequired attr viewMsg xschema
              extraction handler request)) := by
  unfold wrapped_view
  by_cases hauth : authGateFails loginRequired request = true
  · rw [if_pos hauth]; left; rfl
  · rw [if_neg hauth]
    by_cases hm1 : listMethodGateFails attr request = true
    · rw [if_pos hm1]; right; left; rfl
    · rw [if_neg hm1]
      by_cases hm2 : strMethodGateFails attr request = true
      · rw [if_pos hm2]; right; left; rfl
      · rw [if_neg hm2]
        cases hrun : run_view_and_resolve cap xschema extraction handler with
        | ok r =>
          have htb : try_block cap registry xschema extraction handler request = r := by
            unfold try_block
            rw [hrun]
          rw [htb]
          right; right; right; right
          cases hex : extraction with
          | error e =>
            rw [hex] at hrun
            exact absurd hrun (by simp [run_view_and_resolve])
          | ok kwargs =>
            rw [hex] at hrun
            simp only [run_view_and_resolve] at hrun
            cases hh : handler kwargs with
            | error e2 =>
              rw [hh] at hrun
              simp at hrun
            | ok ret =>
              rw [hh] at hrun
              exact ⟨kwargs, ret, rfl, hh, hrun⟩
        | error e =>
          rw [try_block_error_char cap registry xschema extraction handler request e hrun]
          unfold except_fallback
          cases hhe : handle_error registry request e with
          | some r =>
            rcases handle_error_status registry request e r hhe with h4 | h5
            · right; right; left; exact h4
            · right; right; right; left; exact h5
          | none =>
            cases e with
            | validationError errs => right; right; left; rfl
            | attributeError msg => right; right; right; left; rfl
            | other tyName => right; right; right; left; rfl

/-- C10 (counterexample): the claim asserts the decorator always
normalizes the configuration to a list, so the attached
`djapy_allowed_method` attribute is a list for every wrapped handler. A
falsy configuration — the empty list, a value of the declared
`List[ALLOW_METHODS_LITERAL]` type — fails the `if allowed_method:` test,
so the attribute is never attached and the wrapper reads `None`, which is
not a list. -/
theorem c10_attr_always_list_counterexample :
    (decorator_allowed_attr (PyMethodCfg.pyList [])).isList = false := by
  rfl

/-- C10 (amended): whenever the decorator attaches the attribute it is a
list (a truthy string is wrapped into a one-element list, a truthy list
kept as-is) and it is never a string; a falsy configuration leaves the
attribute absent. Consequently, on every attribute value the decorator
can produce, the wrapper's string-comparison method branch is
unreachable: its guard evaluates to false for every request. -/
theorem c10_amended_normalization :
    (∀ cfg : PyMethodCfg, (decorator_allowed_attr cfg).isStr = false)
    ∧ (∀ s : String, s ≠ "" → decorator_allowed_attr (PyMethodCfg.pyStr s)
        = MethodAttr.list [s])
    ∧ (∀ l : List String, l ≠ [] → decorator_allowed_attr (PyMethodCfg.pyList l)
        = MethodAttr.list l)
    ∧ (∀ (cfg : PyMethodCfg) (request : Request),
        strMethodGateFails (decorator_allowed_attr cfg) request = false) := by
  refine ⟨?_, ?_, ?_, ?_⟩
  · intro cfg
    cases cfg with
    | pyNone => rfl
    | pyStr s =>
      by_cases hs : s == ""
      · simp [decorator_allowed_attr, cfgTruthy, hs, MethodAttr.isStr]
      · simp only [Bool.not_eq_true] at hs
        simp [decorator_allowed_attr, cfgTruthy, hs, MethodAttr.isStr]
    | pyList l =>
      by_cases hl : l.isEmpty
      · simp [decorator_allowed_attr, cfgTruthy, hl, MethodAttr.isStr]
      · simp only [Bool.not_eq_true] at hl
        simp [decorator_allowed_attr, cfgTruthy, hl, MethodAttr.isStr]
  · intro s hs
    have hb : (s == "") = false := by
      cases h : s == ""
      · rfl
      · exact absurd (by simpa using h) hs
    simp [decorator_allowed_attr, cfgTruthy, hb]
  · intro l hl
    have hb : l.isEmpty = false := by
      cases l with
      | nil => exact absurd rfl hl
      | cons a as => rfl
    simp [decorator_allowed_attr, cfgTruthy, hb]
  · intro cfg request
    cases cfg with
    | pyNone => rfl
    | pyStr s =>
      by_cases hs : (s == "") = true
      · simp [decorator_allowed_attr, cfgTruthy, hs, strMethodGateFails]
      · simp only [Bool.not_eq_true] at hs
        simp [decorator_allowed_attr, cfgTruthy, hs, strMethodGateFails]
    | pyList l =>
      by_cases hl : l.isEmpty = true
      · simp [decorator_allowed_attr, cfgTruthy, hl, strMethodGateFails]
      · simp only [Bool.not_eq_true] at hl
        simp [decorator_allowed_attr, cfgTruthy, hl, strMethodGateFails]

/-- C10 (witness for the amended theorem): the default configuration, the
single string `"GET"`, is attached as the one-element list. -/
theorem c10_amended_witness :
    decorator_allowed_attr (PyMethodCfg.pyStr "GET") = MethodAttr.list ["GET"] :=
  c10_amended_normalization.2.1 "GET" (by decide)

end Djapy
